import Mathlib

/-!
Formal model of the gainput `InputDevice` core
(`src/lib/include/gainput/GainputInputDevice.h`): device identity, the
double-buffered state model, availability-gated button getters, the
per-frame update protocol and the optional-capability defaults.

Machine-level C++ types are embedded as follows: `DeviceButtonId` and
`DeviceId` (unsigned integers used only as opaque indices) become `Nat`;
`float` button values are only ever stored, copied and compared (never
computed with), so they are embedded as `Rat`, with `0` standing for the
C++ literal `0.0f`; output arrays written by bulk queries become the list
of written elements.  Virtual member functions supplied by concrete
devices (`InternalGetState`, `IsValidButtonId`, `GetButtonType`, the net
effect of `InternalUpdate` on the current buffer, and the optional
capability overrides) become fields of the device structure.
-/

namespace Gainput

/-- Type of an input device button (`enum ButtonType`). -/
inductive ButtonType where
  | BT_BOOL
  | BT_FLOAT
  | BT_COUNT
deriving DecidableEq, Repr

/-- Type of an input device (`enum InputDevice::DeviceType`). -/
inductive DeviceType where
  | DT_MOUSE
  | DT_KEYBOARD
  | DT_PAD
  | DT_TOUCH
  | DT_REMOTE
  | DT_GESTURE
  | DT_CUSTOM
  | DT_COUNT
deriving DecidableEq, Repr

/-- State of an input device (`enum InputDevice::DeviceState`). -/
inductive DeviceState where
  | DS_OK
  | DS_LOW_BATTERY
  | DS_UNAVAILABLE
deriving DecidableEq, Repr

/-- Modelled from the spec: the `InputState` state buffer class is not in
the sources (only the header that uses it is); per spec section 2 it is
"a flat container mapping a button index to either a boolean or a
floating-point value".  `getBool`/`getFloat` are its read accessors
(`InputState::GetBool` / `InputState::GetFloat`). -/
structure InputState where
  getBool : Nat → Bool
  getFloat : Nat → Rat

/-- Modelled from the spec: `InvalidDeviceButtonId` is defined outside the
sources; per spec section 3 it is "a reserved sentinel value" of the
unsigned `DeviceButtonId` space denoting "no such button". -/
def InvalidDeviceButtonId : Nat := 4294967295

/-- The `InputDevice` class.  Data members (`deviceId_`, `index_`,
`state_`, `previousState_`) are structure fields; the pure-virtual
members that concrete devices supply are function-valued fields
(`internalGetState` for `InternalGetState()`, `isValidButtonId` for
`IsValidButtonId`, `buttonType` for `GetButtonType`); `buttonCount` is
the device's fixed button-ID range (spec: "device-button ranges are
fixed at construction"); `sample` is the net effect of the
concrete device's `InternalUpdate` on the current state buffer; the
three `...Ov` fields are `some` exactly when the concrete device
overrides the corresponding optional virtual capability. -/
structure InputDevice where
  deviceId_ : Nat
  index_ : Nat
  state_ : InputState
  previousState_ : InputState
  internalGetState : DeviceState
  isValidButtonId : Nat → Bool
  buttonType : Nat → ButtonType
  buttonCount : Nat
  sample : InputState → InputState
  getAnyButtonDownOv : Option (Nat → List Nat)
  getButtonNameOv : Option (Nat → Nat → Nat)
  getButtonByNameOv : Option (List Char → Nat)

namespace InputDevice

/-- Modelled from the spec: the body of `InputDevice::GetState` is not in
the sources (only its declaration, header line 84); per spec section 4.1
it "returns the live DeviceState by delegating to `InternalGetState()`",
with no caching. -/
def GetState (d : InputDevice) : DeviceState :=
  d.internalGetState

/-- `InputDevice::IsAvailable` (header line 86):
`return GetState() == DS_OK || GetState() == DS_LOW_BATTERY;`. -/
def IsAvailable (d : InputDevice) : Bool :=
  (d.GetState == DeviceState.DS_OK) || (d.GetState == DeviceState.DS_LOW_BATTERY)

/-- `InputDevice::GetDeviceId` (header line 73): `return deviceId_;`. -/
def GetDeviceId (d : InputDevice) : Nat := d.deviceId_

/-- `InputDevice::GetIndex` (header line 75): `return index_;`. -/
def GetIndex (d : InputDevice) : Nat := d.index_

/-- `InputDevice::GetBool` (header lines 180-191), release build: the
availability guard returns `false`, the `GAINPUT_ASSERT`s compile away,
and the value is read from `state_`. -/
def GetBool (d : InputDevice) (deviceButton : Nat) : Bool :=
  if !d.IsAvailable then
    false
  else
    d.state_.getBool deviceButton

/-- `InputDevice::GetBoolPrevious` (header lines 193-204), release build:
like `GetBool` but reading `previousState_`. -/
def GetBoolPrevious (d : InputDevice) (deviceButton : Nat) : Bool :=
  if !d.IsAvailable then
    false
  else
    d.previousState_.getBool deviceButton

/-- `InputDevice::GetFloat` (header lines 206-217), release build: the
availability guard returns `0.0f`, then the value is read from `state_`. -/
def GetFloat (d : InputDevice) (deviceButton : Nat) : Rat :=
  if !d.IsAvailable then
    0
  else
    d.state_.getFloat deviceButton

/-- `InputDevice::GetFloatPrevious` (header lines 219-230), release
build: like `GetFloat` but reading `previousState_`. -/
def GetFloatPrevious (d : InputDevice) (deviceButton : Nat) : Rat :=
  if !d.IsAvailable then
    0
  else
    d.previousState_.getFloat deviceButton

/-- `InputDevice::GetBool`, debug build: `GAINPUT_ASSERT(IsValidButtonId
(deviceButton))` is active and an assertion failure aborts, modelled as
`none`.  The order of the branches is the order of the statements in the
source: the availability guard comes before the assertion, which comes
before the buffer read. -/
def GetBoolChecked (d : InputDevice) (deviceButton : Nat) : Option Bool :=
  if !d.IsAvailable then
    some false
  else if !d.isValidButtonId deviceButton then
    none
  else
    some (d.state_.getBool deviceButton)

/-- `InputDevice::GetBoolPrevious`, debug build (see `GetBoolChecked`). -/
def GetBoolPreviousChecked (d : InputDevice) (deviceButton : Nat) : Option Bool :=
  if !d.IsAvailable then
    some false
  else if !d.isValidButtonId deviceButton then
    none
  else
    some (d.previousState_.getBool deviceButton)

/-- `InputDevice::GetFloat`, debug build (see `GetBoolChecked`). -/
def GetFloatChecked (d : InputDevice) (deviceButton : Nat) : Option Rat :=
  if !d.IsAvailable then
    some 0
  else if !d.isValidButtonId deviceButton then
    none
  else
    some (d.state_.getFloat deviceButton)

/-- `InputDevice::GetFloatPrevious`, debug build (see `GetBoolChecked`). -/
def GetFloatPreviousChecked (d : InputDevice) (deviceButton : Nat) : Option Rat :=
  if !d.IsAvailable then
    some 0
  else if !d.isValidButtonId deviceButton then
    none
  else
    some (d.previousState_.getFloat deviceButton)

/-- Method-call form of `GetBool` returning the post-call receiver: the
method is `const` and its body (header lines 182-191) contains no write
to any data member, so the post-call device is the receiver unchanged. -/
def GetBoolS (d : InputDevice) (deviceButton : Nat) : Bool × InputDevice :=
  (d.GetBool deviceButton, d)

/-- Method-call form of `GetBoolPrevious` (see `GetBoolS`). -/
def GetBoolPreviousS (d : InputDevice) (deviceButton : Nat) : Bool × InputDevice :=
  (d.GetBoolPrevious deviceButton, d)

/-- Method-call form of `GetFloat` (see `GetBoolS`). -/
def GetFloatS (d : InputDevice) (deviceButton : Nat) : Rat × InputDevice :=
  (d.GetFloat deviceButton, d)

/-- Method-call form of `GetFloatPrevious` (see `GetBoolS`). -/
def GetFloatPreviousS (d : InputDevice) (deviceButton : Nat) : Rat × InputDevice :=
  (d.GetFloatPrevious deviceButton, d)

/-- Method-call form of `GetDeviceId` (header line 73): `const`, body
`return deviceId_;`, no write to any data member. -/
def GetDeviceIdS (d : InputDevice) : Nat × InputDevice :=
  (d.GetDeviceId, d)

/-- Method-call form of `GetIndex` (header line 75, see `GetDeviceIdS`). -/
def GetIndexS (d : InputDevice) : Nat × InputDevice :=
  (d.GetIndex, d)

/-- `InputDevice::GetAnyButtonDown` (header line 106): the base-class
default returns `0` and writes nothing to `outButtons`; a concrete
device that overrides supplies `getAnyButtonDownOv`.  The result is the
list of buttons written to `outButtons` (so its length is the returned
count). -/
def GetAnyButtonDown (d : InputDevice) (maxButtonCount : Nat) : List Nat :=
  match d.getAnyButtonDownOv with
  | none => []
  | some f => f maxButtonCount

/-- `InputDevice::GetButtonName` (header line 115): the base-class
default returns `0` bytes written; an override supplies
`getButtonNameOv`. -/
def GetButtonName (d : InputDevice) (deviceButton : Nat) (bufferLength : Nat) : Nat :=
  match d.getButtonNameOv with
  | none => 0
  | some f => f deviceButton bufferLength

/-- `InputDevice::GetButtonByName` (header line 124): the base-class
default returns `InvalidDeviceButtonId`; an override supplies
`getButtonByNameOv`. -/
def GetButtonByName (d : InputDevice) (name : List Char) : Nat :=
  match d.getButtonByNameOv with
  | none => InvalidDeviceButtonId
  | some f => f name

/-- Modelled from the spec: the body of the constructor
`InputDevice::InputDevice(InputManager&, DeviceId, unsigned)` (header
line 61) is not in the sources; per spec sections 3 and 6 the manager
"assigns DeviceId and per-type index" at creation and the two state
buffers are owned by the device.  The concrete-device-supplied members
are passed through. -/
def construct (device : Nat) (index : Nat) (s ps : InputState)
    (igs : DeviceState) (valid : Nat → Bool) (bt : Nat → ButtonType)
    (n : Nat) (smp : InputState → InputState)
    (ov1 : Option (Nat → List Nat)) (ov2 : Option (Nat → Nat → Nat))
    (ov3 : Option (List Char → Nat)) : InputDevice :=
  { deviceId_ := device
    index_ := index
    state_ := s
    previousState_ := ps
    internalGetState := igs
    isValidButtonId := valid
    buttonType := bt
    buttonCount := n
    sample := smp
    getAnyButtonDownOv := ov1
    getButtonNameOv := ov2
    getButtonByNameOv := ov3 }

/-- The value of button `b` in buffer `s`, in the value domain given by
the button's `GetButtonType` tag (spec section 3: "Exactly one type per
button ID for the lifetime of the device"). -/
def buttonValue (d : InputDevice) (s : InputState) (b : Nat) : Bool ⊕ Rat :=
  match d.buttonType b with
  | ButtonType.BT_BOOL => Sum.inl (s.getBool b)
  | _ => Sum.inr (s.getFloat b)

/-- One delta/change record: a single button's old-value/new-value pair
reported during one update pass (spec glossary). -/
structure ChangeRecord where
  button : Nat
  oldValue : Bool ⊕ Rat
  newValue : Bool ⊕ Rat
deriving DecidableEq, Repr

/-- The change records `InternalUpdate` reports to a non-null delta
notifier: per spec section 4.2 it reports `(buttonId, oldValue,
newValue)` for each button of the device's fixed range whose value
changed. -/
def changedRecords (d : InputDevice) (prev cur : InputState) : List ChangeRecord :=
  ((List.range d.buttonCount).filter
      (fun b => decide (buttonValue d prev b ≠ buttonValue d cur b))).map
    (fun b => ⟨b, buttonValue d prev b, buttonValue d cur b⟩)

/-- Modelled from the spec: the body of `InputDevice::Update` (header
line 70) is not in the sources; per spec section 4.2 it (1) copies
`state_`'s entire contents into `previousState_`, then (2) invokes
`InternalUpdate(delta)`, which re-samples into `state_` and, if `delta`
is non-null, reports one `(buttonId, oldValue, newValue)` record per
changed button.  `hasDelta` is whether the `delta` pointer is non-null;
the returned list is the records reported to the notifier. -/
def Update (d : InputDevice) (hasDelta : Bool) : InputDevice × List ChangeRecord :=
  let prev := d.state_
  let cur := d.sample d.state_
  let records := if hasDelta then changedRecords d prev cur else []
  ({ d with previousState_ := prev, state_ := cur }, records)

/-- Modelled from the spec: the body of
`InputDevice::CheckAllButtonsDown` (header line 176) is not in the
sources; per spec section 4.3 it "scans a contiguous button-ID range
`[start, end]`, and for every button currently down (per
`GetBool`/state semantics) appends it to `outButtons` until either the
range is exhausted or `maxButtonCount` entries have been written;
returns the count written".  The result is the list of buttons written
to `outButtons` (its length is the returned count). -/
def CheckAllButtonsDown (d : InputDevice) (maxButtonCount : Nat)
    (start : Nat) (e : Nat) : List Nat :=
  ((List.range' start (e + 1 - start)).filter (fun b => d.GetBool b)).take
    maxButtonCount

end InputDevice

end Gainput

namespace Gainput

namespace InputDevice

/-! Concrete devices used to instantiate the theorems below. -/

/-- A state buffer holding non-neutral values everywhere (every bool
button down, every float button at `1.0`). -/
def stateOn : InputState := ⟨fun _ => true, fun _ => 1⟩

/-- A state buffer holding the neutral value everywhere. -/
def stateOff : InputState := ⟨fun _ => false, fun _ => 0⟩

/-- An unavailable device whose buffers store non-neutral values, with
button IDs `0..3` valid and no optional-capability overrides. -/
def devUnavail : InputDevice :=
  { deviceId_ := 3
    index_ := 0
    state_ := stateOn
    previousState_ := stateOn
    internalGetState := DeviceState.DS_UNAVAILABLE
    isValidButtonId := fun b => decide (b < 4)
    buttonType := fun _ => ButtonType.BT_BOOL
    buttonCount := 4
    sample := fun s => s
    getAnyButtonDownOv := none
    getButtonNameOv := none
    getButtonByNameOv := none }

/-- An available (`DS_OK`) device with a bool button `0` (down) and a
float button `1`, and distinct current/previous buffers. -/
def devOk : InputDevice :=
  { deviceId_ := 1
    index_ := 2
    state_ := ⟨fun b => b == 0, fun b => if b == 0 then (1 : Rat) else 0⟩
    previousState_ := stateOff
    internalGetState := DeviceState.DS_OK
    isValidButtonId := fun b => decide (b < 2)
    buttonType := fun b => if b == 0 then ButtonType.BT_BOOL else ButtonType.BT_FLOAT
    buttonCount := 2
    sample := fun s => s
    getAnyButtonDownOv := none
    getButtonNameOv := none
    getButtonByNameOv := none }

/-- An available two-bool-button device, all buttons initially up, whose
sampling presses button `0` and leaves button `1` up. -/
def devSamp : InputDevice :=
  { deviceId_ := 2
    index_ := 0
    state_ := stateOff
    previousState_ := stateOff
    internalGetState := DeviceState.DS_OK
    isValidButtonId := fun b => decide (b < 2)
    buttonType := fun _ => ButtonType.BT_BOOL
    buttonCount := 2
    sample := fun _ => ⟨fun b => b == 0, fun _ => 0⟩
    getAnyButtonDownOv := none
    getButtonNameOv := none
    getButtonByNameOv := none }

end InputDevice

end Gainput

namespace Gainput

namespace InputDevice


/-- Count of records for button `b` among the records reported for a
changed-button scan: one when `b`'s value changed, none otherwise. -/
lemma countP_changedRecords (d : InputDevice) (prev cur : InputState) (b : Nat)
    (hb : b < d.buttonCount) :
    (changedRecords d prev cur).countP (fun r => r.button == b) =
      if buttonValue d prev b ≠ buttonValue d cur b then 1 else 0 := by
  unfold changedRecords
  rw [List.countP_map]
  have hcomp : ((fun r : ChangeRecord => r.button == b) ∘
      fun x => (⟨x, buttonValue d prev x, buttonValue d cur x⟩ : ChangeRecord)) =
      fun x => x == b := rfl
  rw [hcomp]
  have hcnt : ∀ l : List Nat, l.countP (fun x => x == b) = l.count b := fun _ => rfl
  rw [hcnt]
  by_cases h : buttonValue d prev b ≠ buttonValue d cur b
  · rw [if_pos h, List.count_filter (p := fun x => decide (buttonValue d prev x ≠ buttonValue d cur x)) (decide_eq_true h)]
    exact List.count_eq_one_of_mem (List.nodup_range _) (List.mem_range.mpr hb)
  · rw [if_neg h]
    apply List.count_eq_zero.mpr
    intro hmem
    rcases List.mem_filter.mp hmem with ⟨_, hpb⟩
    exact h (of_decide_eq_true hpb)

/-- Every reported record carries the old and new value of its button. -/
lemma mem_changedRecords (d : InputDevice) (prev cur : InputState)
    (r : ChangeRecord) (hr : r ∈ changedRecords d prev cur) :
    r.oldValue = buttonValue d prev r.button ∧
    r.newValue = buttonValue d cur r.button := by
  unfold changedRecords at hr
  rcases List.mem_map.mp hr with ⟨x, hx, rfl⟩
  exact ⟨rfl, rfl⟩

end InputDevice

end Gainput

namespace Gainput

namespace InputDevice

/-- C1: for every device and every button id, if `IsAvailable()` is
false then `GetBool` and `GetBoolPrevious` return `false` and
`GetFloat` and `GetFloatPrevious` return `0.0`, regardless of the
values stored in the state buffers (the device, hence its buffers, is
universally quantified). -/
theorem unavailable_masks_reads (d : InputDevice) (b : Nat)
    (h : d.IsAvailable = false) :
    d.GetBool b = false ∧ d.GetBoolPrevious b = false ∧
    d.GetFloat b = 0 ∧ d.GetFloatPrevious b = 0 := by
  simp [GetBool, GetBoolPrevious, GetFloat, GetFloatPrevious, h]

/-- Witness for C1 at the unavailable device `devUnavail`, whose buffers
store `true`/`1.0` everywhere. -/
theorem unavailable_masks_reads_witness :
    devUnavail.IsAvailable = false ∧
    (devUnavail.GetBool 2 = false ∧ devUnavail.GetBoolPrevious 2 = false ∧
     devUnavail.GetFloat 2 = 0 ∧ devUnavail.GetFloatPrevious 2 = 0) :=
  ⟨rfl, unavailable_masks_reads devUnavail 2 rfl⟩

/-- C2: `Update(delta)` first copies the whole current buffer into the
previous buffer and only then re-samples the current buffer, so after
`Update` returns the previous buffer holds exactly, for every button
id, what the current buffer held before the call. -/
theorem update_refreshes_previous_buffer (d : InputDevice) (hasDelta : Bool) :
    (d.Update hasDelta).1.previousState_ = d.state_ ∧
    (∀ b, (d.Update hasDelta).1.previousState_.getBool b = d.state_.getBool b ∧
          (d.Update hasDelta).1.previousState_.getFloat b = d.state_.getFloat b) ∧
    (d.Update hasDelta).1.state_ = d.sample d.state_ :=
  ⟨rfl, fun _ => ⟨rfl, rfl⟩, rfl⟩

/-- C3: `IsAvailable()` is true iff `GetState()` is `DS_OK` or
`DS_LOW_BATTERY`, and is false when `GetState()` is `DS_UNAVAILABLE`. -/
theorem isAvailable_iff_ok_or_low_battery (d : InputDevice) :
    (d.IsAvailable = true ↔
      (d.GetState = DeviceState.DS_OK ∨ d.GetState = DeviceState.DS_LOW_BATTERY)) ∧
    (d.GetState = DeviceState.DS_UNAVAILABLE → d.IsAvailable = false) := by
  cases hd : d.internalGetState <;> simp [IsAvailable, GetState, hd]

/-- Witness for C3 at `devUnavail`, whose state is `DS_UNAVAILABLE`. -/
theorem isAvailable_iff_ok_or_low_battery_witness :
    devUnavail.GetState = DeviceState.DS_UNAVAILABLE ∧
    devUnavail.IsAvailable = false :=
  ⟨rfl, (isAvailable_iff_ok_or_low_battery devUnavail).2 rfl⟩

/-- C4: on an available device and a valid button id, `GetBool` and
`GetFloat` read the current buffer `state_` and `GetBoolPrevious` and
`GetFloatPrevious` read the previous buffer `previousState_`. -/
theorem available_reads_from_buffers (d : InputDevice) (b : Nat)
    (h : d.IsAvailable = true) (hv : d.isValidButtonId b = true) :
    d.GetBool b = d.state_.getBool b ∧
    d.GetBoolPrevious b = d.previousState_.getBool b ∧
    d.GetFloat b = d.state_.getFloat b ∧
    d.GetFloatPrevious b = d.previousState_.getFloat b := by
  simp [GetBool, GetBoolPrevious, GetFloat, GetFloatPrevious, h]

/-- Witness for C4 at the available device `devOk` and its valid button
`0`. -/
theorem available_reads_from_buffers_witness :
    devOk.IsAvailable = true ∧ devOk.isValidButtonId 0 = true ∧
    (devOk.GetBool 0 = devOk.state_.getBool 0 ∧
     devOk.GetBoolPrevious 0 = devOk.previousState_.getBool 0 ∧
     devOk.GetFloat 0 = devOk.state_.getFloat 0 ∧
     devOk.GetFloatPrevious 0 = devOk.previousState_.getFloat 0) :=
  ⟨rfl, by decide, available_reads_from_buffers devOk 0 rfl (by decide)⟩

/-- C5: in an `Update` with a non-null delta notifier, every device
button whose value differs between the previous and current buffers
after the update generates exactly one change record, no record is
generated for an unchanged button, and every record carries its
button old and new values. -/
theorem update_delta_complete (d : InputDevice) (b : Nat)
    (hb : b < d.buttonCount) :
    ((d.Update true).2.countP (fun r => r.button == b) =
      if buttonValue d (d.Update true).1.previousState_ b ≠
          buttonValue d (d.Update true).1.state_ b then 1 else 0) ∧
    ∀ r ∈ (d.Update true).2,
      r.oldValue = buttonValue d (d.Update true).1.previousState_ r.button ∧
      r.newValue = buttonValue d (d.Update true).1.state_ r.button := by
  refine ⟨?_, ?_⟩
  · exact countP_changedRecords d d.state_ (d.sample d.state_) b hb
  · intro r hr
    exact mem_changedRecords d d.state_ (d.sample d.state_) r hr

/-- Witness for C5 at `devSamp` and its button `0`, which the sampling
step presses. -/
theorem update_delta_complete_witness :
    0 < devSamp.buttonCount ∧
    ((devSamp.Update true).2.countP (fun r => r.button == 0) =
      if buttonValue devSamp (devSamp.Update true).1.previousState_ 0 ≠
          buttonValue devSamp (devSamp.Update true).1.state_ 0 then 1 else 0) :=
  ⟨by decide, (update_delta_complete devSamp 0 (by decide)).1⟩

/-- C6: the count returned by `CheckAllButtonsDown` and by the default
`GetAnyButtonDown` never exceeds `maxButtonCount`; the returned list is
exactly the sequence of elements written to `outButtons`, so no element
at index `count` or beyond is written. -/
theorem bulk_query_count_bounded (d : InputDevice)
    (maxButtonCount start e : Nat) (hdef : d.getAnyButtonDownOv = none) :
    (d.CheckAllButtonsDown maxButtonCount start e).length ≤ maxButtonCount ∧
    (d.GetAnyButtonDown maxButtonCount).length ≤ maxButtonCount := by
  constructor
  · exact List.length_take_le maxButtonCount _
  · simp [GetAnyButtonDown, hdef]

/-- Witness for C6 at `devOk` scanning buttons `0..5` with room for one
entry. -/
theorem bulk_query_count_bounded_witness :
    devOk.getAnyButtonDownOv = none ∧
    ((devOk.CheckAllButtonsDown 1 0 5).length ≤ 1 ∧
     (devOk.GetAnyButtonDown 1).length ≤ 1) :=
  ⟨rfl, bulk_query_count_bounded devOk 1 0 5 rfl⟩

/-- C7: a device that overrides none of the optional capabilities
returns `0` from `GetAnyButtonDown` (writing nothing), `0` from
`GetButtonName`, and `InvalidDeviceButtonId` from `GetButtonByName` —
sentinel/zero values, never an error code. -/
theorem default_optional_capabilities (d : InputDevice)
    (h1 : d.getAnyButtonDownOv = none) (h2 : d.getButtonNameOv = none)
    (h3 : d.getButtonByNameOv = none)
    (maxButtonCount deviceButton bufferLength : Nat) (name : List Char) :
    (d.GetAnyButtonDown maxButtonCount).length = 0 ∧
    d.GetAnyButtonDown maxButtonCount = [] ∧
    d.GetButtonName deviceButton bufferLength = 0 ∧
    d.GetButtonByName name = InvalidDeviceButtonId := by
  simp [GetAnyButtonDown, GetButtonName, GetButtonByName, h1, h2, h3]

/-- Witness for C7 at `devSamp`, which has no capability overrides. -/
theorem default_optional_capabilities_witness :
    devSamp.getAnyButtonDownOv = none ∧ devSamp.getButtonNameOv = none ∧
    devSamp.getButtonByNameOv = none ∧
    ((devSamp.GetAnyButtonDown 8).length = 0 ∧
     devSamp.GetAnyButtonDown 8 = [] ∧
     devSamp.GetButtonName 1 16 = 0 ∧
     devSamp.GetButtonByName [] = InvalidDeviceButtonId) :=
  ⟨rfl, rfl, rfl, default_optional_capabilities devSamp rfl rfl rfl 8 1 16 []⟩

/-- C8: `GetDeviceId()` and `GetIndex()` are pure accessors: they return
the id and per-type index assigned at construction, leave the device
unchanged, and `Update` preserves both fields for the device lifetime. -/
theorem id_and_index_pure_accessors (device index : Nat) (s ps : InputState)
    (igs : DeviceState) (valid : Nat → Bool) (bt : Nat → ButtonType) (n : Nat)
    (smp : InputState → InputState) (ov1 : Option (Nat → List Nat))
    (ov2 : Option (Nat → Nat → Nat)) (ov3 : Option (List Char → Nat))
    (d : InputDevice) (hasDelta : Bool) :
    (construct device index s ps igs valid bt n smp ov1 ov2 ov3).GetDeviceId
        = device ∧
    (construct device index s ps igs valid bt n smp ov1 ov2 ov3).GetIndex
        = index ∧
    d.GetDeviceIdS = (d.deviceId_, d) ∧
    d.GetIndexS = (d.index_, d) ∧
    (d.Update hasDelta).1.deviceId_ = d.deviceId_ ∧
    (d.Update hasDelta).1.index_ = d.index_ :=
  ⟨rfl, rfl, rfl, rfl, rfl, rfl⟩

/-- C9: the availability guard comes before the validity assertion and
before any buffer access, so on an unavailable device the debug-build
getters return the neutral default for every id — invalid ids included —
and the assertion branch (`none`) is never reached. -/
theorem unavailable_bypasses_validity_assert (d : InputDevice) (b : Nat)
    (h : d.IsAvailable = false) :
    d.GetBoolChecked b = some false ∧
    d.GetBoolPreviousChecked b = some false ∧
    d.GetFloatChecked b = some 0 ∧
    d.GetFloatPreviousChecked b = some 0 := by
  simp [GetBoolChecked, GetBoolPreviousChecked, GetFloatChecked,
    GetFloatPreviousChecked, h]

/-- Witness for C9 at `devUnavail` and the invalid button id `9`. -/
theorem unavailable_bypasses_validity_assert_witness :
    devUnavail.IsAvailable = false ∧ devUnavail.isValidButtonId 9 = false ∧
    (devUnavail.GetBoolChecked 9 = some false ∧
     devUnavail.GetBoolPreviousChecked 9 = some false ∧
     devUnavail.GetFloatChecked 9 = some 0 ∧
     devUnavail.GetFloatPreviousChecked 9 = some 0) :=
  ⟨rfl, by decide, unavailable_bypasses_validity_assert devUnavail 9 rfl⟩

/-- C10: the four state getters are `const` methods whose bodies write
no data member: the post-call device equals the receiver, so
`deviceId_`, `index_`, both buffer fields and their contents are
unchanged. -/
theorem getters_have_no_side_effects (d : InputDevice) (b : Nat) :
    (d.GetBoolS b).2 = d ∧ (d.GetBoolPreviousS b).2 = d ∧
    (d.GetFloatS b).2 = d ∧ (d.GetFloatPreviousS b).2 = d :=
  ⟨rfl, rfl, rfl, rfl⟩

end InputDevice

end Gainput
